import Mathlib

/-!
Verification development for the camoufox-mcp browser-automation server.

The definitions below are a shallow embedding of the Python sources under
`src/camoufox_mcp/`.  Python attribute state of `CamoufoxMCPServer`
(`base.py`) is modelled by the record `ServerState`; external library calls
(Camoufox launch, Playwright page actions, the filesystem) are modelled by
explicit environment records giving the outcome of each call, and side
effects on the outside world are recorded as an event trace.  Python
exceptions are modelled by the `PyExn` type together with `Except`.
-/

namespace CamoufoxMCP

/-- Python exception values relevant to the server: asyncio.TimeoutError,
playwright Error, RuntimeError, ValueError, KeyError (carrying the missing
key) and a catch-all for any other exception class. -/
inductive PyExn where
  | timeoutError (msg : String)
  | playwrightError (msg : String)
  | runtimeError (msg : String)
  | valueError (msg : String)
  | keyError (key : String)
  | otherExn (msg : String)
deriving DecidableEq, Repr

/-- The message text Python would interpolate for an exception value
(`str(e)` in the source, up to our encoding of exception objects). -/
def PyExn.msg : PyExn → String
  | .timeoutError m => m
  | .playwrightError m => m
  | .runtimeError m => m
  | .valueError m => m
  | .keyError k => k
  | .otherExn m => m

/-- One content item of an MCP `CallToolResult`: `TextContent` or
`ImageContent` (mcp.types). -/
inductive Content where
  | text (s : String)
  | image (data : String) (mimeType : String)
deriving DecidableEq, Repr

/-- The MCP response envelope `CallToolResult`: a list of content items and
an error flag (`isError` defaults to `False` in mcp.types, so constructors
in the source that omit it produce `false` here). -/
structure CallToolResult where
  content : List Content
  isError : Bool
deriving DecidableEq, Repr

/-- A successful result with a single text item (`isError` omitted in the
source, hence false). -/
def okText (s : String) : CallToolResult :=
  { content := [Content.text s], isError := false }

/-- An error result with a single text item (`isError=True` in the source). -/
def errText (s : String) : CallToolResult :=
  { content := [Content.text s], isError := true }

/-- The mutable attributes of `CamoufoxMCPServer` (base.py, `__init__`):
`self.browser`, `self.browser_instance`, `self.browser_context`,
`self.page`, `self._browser_starting`.  Handles are opaque: we model them
as `Option Nat` identifiers (None / a handle id). -/
structure ServerState where
  browser : Option Nat
  browser_instance : Option Nat
  browser_context : Option Nat
  page : Option Nat
  browser_starting : Bool
deriving DecidableEq, Repr

/-- The freshly initialised server state (`__init__` sets every handle to
None and the starting flag to False). -/
def initState : ServerState :=
  { browser := none, browser_instance := none, browser_context := none,
    page := none, browser_starting := false }

/-- A session is absent when every handle is None and no startup is in
flight (the spec state `Absent`). -/
def SessionAbsent (s : ServerState) : Prop :=
  s.browser = none ∧ s.browser_instance = none ∧ s.browser_context = none ∧
    s.page = none ∧ s.browser_starting = false

instance (s : ServerState) : Decidable (SessionAbsent s) := by
  unfold SessionAbsent; infer_instance

/-- External side effects of the embedded code, recorded as a trace:
a Camoufox launch (`async with self.browser`), a context creation
(`new_context()`), a page creation (`new_page()` — present in the old
monolith, absent from the package sources), a navigation
(`page.goto(url)`), releasing the page (`page.close()`) and releasing the
browser (`browser.__aexit__`). -/
inductive Event where
  | launch
  | newContext
  | newPage
  | gotoCall (url : String) (waitUntil : String)
  | pageClose
  | browserExit
deriving DecidableEq, Repr

/-- `s.startswith(pre)`: executable prefix test over the character data
(the builtin `String.startsWith` does not reduce in the kernel). -/
def strStartsWith (s pre : String) : Bool := pre.data.isPrefixOf s.data

/-- `c in s` for a single character: executable membership test over the
character data. -/
def strContainsChar (s : String) (c : Char) : Bool := s.data.contains c

/-- Python `str.strip()`: drop whitespace from both ends. -/
def strTrim (s : String) : String :=
  String.mk (((s.data.dropWhile Char.isWhitespace).reverse.dropWhile
    Char.isWhitespace).reverse)

/-! ## Selector resolution (tools/interaction.py)

`InteractionTools.click` (lines 26-35) and `InteractionTools.type_text`
(lines 69-73) turn the `selector` string argument into a Playwright
locator in two different ways. -/

/-- The three locator kinds the tools produce: an XPath locator
(`page.locator("xpath=" + selector)`), a text-content locator
(`page.get_by_text(selector)`) and a CSS locator
(`page.locator(selector)`). -/
inductive LocatorKind where
  | xpath (s : String)
  | textMatch (s : String)
  | css (s : String)
deriving DecidableEq, Repr

/-- The characters `.`, `#`, `[`, `>` whose presence makes `click` treat a
selector as CSS (interaction.py line 30). -/
def chDot : Char := Char.ofNat 46

/-- See `chDot`. -/
def chHash : Char := Char.ofNat 35

/-- See `chDot`. -/
def chLBracket : Char := Char.ofNat 91

/-- See `chDot`. -/
def chGt : Char := Char.ofNat 62

/-- Selector resolution of `InteractionTools.click`
(interaction.py lines 26-35): XPath when the selector starts with `//`,
a text-content locator when none of `.`, `#`, `[`, `>` occurs in it,
otherwise a CSS locator. -/
def clickResolve (selector : String) : LocatorKind :=
  if strStartsWith selector "//" then
    LocatorKind.xpath ("xpath=" ++ selector)
  else if ¬ (strContainsChar selector chDot ∨ strContainsChar selector chHash ∨
      strContainsChar selector chLBracket ∨ strContainsChar selector chGt) then
    LocatorKind.textMatch selector
  else
    LocatorKind.css selector

/-- Selector resolution of `InteractionTools.type_text`
(interaction.py lines 69-73): XPath when the selector starts with `//`,
otherwise always a CSS locator. -/
def typeResolve (selector : String) : LocatorKind :=
  if strStartsWith selector "//" then
    LocatorKind.xpath ("xpath=" ++ selector)
  else
    LocatorKind.css selector

/-! ## Browser lifecycle (server/base.py) -/

/-- The configuration fields of `CamoufoxConfig`
(config/browser_config.py) that the embedded control flow reads.  The
remaining fields (headless, humanize, proxy, ...) are copied verbatim into
the option dictionary handed to the external library (base.py lines
423-450) and never influence any branch of the server code, so they are
not modelled. -/
structure BrowserConfig where
  persistent_context : Bool
  user_data_dir : Option String
  output_dir : String
  main_world_eval : Bool
  captcha_solver : Bool
deriving DecidableEq, Repr

/-- Outcomes of the external library calls made during
`CamoufoxMCPServer._ensure_browser` (base.py lines 415-508):
`camoufoxId` is the identity of the `AsyncCamoufox` object built at line
458, `aenterResult` the outcome of entering `async with self.browser`
(the launch, line 464) and `newContextResult` the outcome of
`browser_instance.new_context()` (line 473). -/
structure EnsureEnv where
  camoufoxId : Nat
  aenterResult : Except PyExn Nat
  newContextResult : Except PyExn Nat
deriving Repr

/-- `CamoufoxMCPServer._cleanup_browser_on_error` (base.py lines 510-522):
when `self.browser` is set, attempt `browser.__aexit__` (any exception is
caught and logged) and in the `finally` block null every handle and clear
the starting flag. -/
def cleanupBrowserOnError (s : ServerState) : ServerState × List Event :=
  if s.browser.isSome then
    ({ browser := none, browser_instance := none, browser_context := none,
       page := none, browser_starting := false }, [Event.browserExit])
  else
    (s, [])

/-- How `_ensure_browser` re-raises a startup exception (base.py lines
479-500): asyncio.TimeoutError, PlaywrightError and config/file errors
each become a `RuntimeError` whose message carries the underlying cause
(`raise RuntimeError(...) from e`). -/
def wrapStartupExn (e : PyExn) : PyExn :=
  match e with
  | .timeoutError _ => .runtimeError "Browser startup timed out (45s)"
  | .playwrightError m => .runtimeError ("PW error at startup: " ++ m)
  | .valueError m => .runtimeError ("Config/file error at startup: " ++ m)
  | e => .runtimeError ("Unexpected startup error: " ++ e.msg)

/-- The common shape of every exception handler of `_ensure_browser`
(base.py lines 479-500): clear the starting flag, run
`_cleanup_browser_on_error`, and re-raise the wrapped exception. -/
def ensureHandleExn (e : PyExn) (s : ServerState) (evs : List Event) :
    Except PyExn Unit × ServerState × List Event :=
  let (s1, ev1) := cleanupBrowserOnError { s with browser_starting := false }
  (Except.error (wrapStartupExn e), s1, evs ++ ev1)

/-- `CamoufoxMCPServer._ensure_browser` (base.py lines 415-508), for a
single sequential call (the interleaved two-task behaviour of the
`_browser_starting` guard is modelled separately below).

If `browser_context is None and not _browser_starting`: set the starting
flag, build the launch options (raising ValueError when
`persistent_context` is requested without `user_data_dir`, line 455),
construct the `AsyncCamoufox` object, enter `async with self.browser`
(the launch), then either take the persistent context directly or create
a context via `new_context()`; store `browser_context` and clear the
starting flag.  No page is ever created or stored on any path.  Any
exception rolls back via `_cleanup_browser_on_error` and re-raises a
`RuntimeError`.  The implicit `__aexit__` at the end of the `async with`
block touches only the external process, not the attributes modelled
here, and is not recorded.

Otherwise, `elif _browser_starting`: poll `browser_context` up to 50
times; within a single sequential call no other task can change it, so
the call succeeds at once when `browser_context` is set and otherwise
raises `RuntimeError("Browser startup failed or timed out")`.

Otherwise (`browser_context` set, flag clear): no-op. -/
def ensureBrowser (cfg : BrowserConfig) (env : EnsureEnv) (s : ServerState) :
    Except PyExn Unit × ServerState × List Event :=
  if s.browser_context = none ∧ s.browser_starting = false then
    let s0 := { s with browser_starting := true }
    if cfg.persistent_context ∧ cfg.user_data_dir = none then
      ensureHandleExn (PyExn.valueError "persistent_context requires user_data_dir") s0 []
    else
      let s1 := { s0 with browser := some env.camoufoxId }
      match env.aenterResult with
      | Except.error e => ensureHandleExn e s1 [Event.launch]
      | Except.ok inst =>
        if cfg.persistent_context then
          (Except.ok (), { s1 with browser_context := some inst,
                                   browser_instance := none,
                                   browser_starting := false },
           [Event.launch])
        else
          let s2 := { s1 with browser_instance := some inst }
          match env.newContextResult with
          | Except.error e => ensureHandleExn e s2 [Event.launch, Event.newContext]
          | Except.ok ctx =>
            (Except.ok (), { s2 with browser_context := some ctx,
                                     browser_starting := false },
             [Event.launch, Event.newContext])
  else if s.browser_starting then
    if s.browser_context.isSome then
      (Except.ok (), s, [])
    else
      (Except.error (PyExn.runtimeError "Browser startup failed or timed out"), s, [])
  else
    (Except.ok (), s, [])

/-- `CamoufoxMCPServer._close_browser_resources` (base.py lines 524-549):
release the page if present, then the browser if present; every release
error is caught and logged, and the `finally` blocks null the handles
regardless, so the resulting state does not depend on whether the release
calls raise (hence no environment parameter). -/
def closeBrowserResources (s : ServerState) : ServerState × List Event :=
  let (s1, ev1) :=
    if s.page.isSome then ({ s with page := none }, [Event.pageClose])
    else (s, ([] : List Event))
  let (s2, ev2) :=
    if s1.browser.isSome then
      ({ s1 with browser := none, browser_instance := none,
                 browser_context := none }, [Event.browserExit])
    else (s1, ([] : List Event))
  (s2, ev1 ++ ev2)

/-- `BrowserManagementTools.close_browser` (tools/browser_mgmt.py lines
15-29): run `_close_browser_resources` and report success; the enclosing
`except` can only fire if `_close_browser_resources` raises, which it
never does (all its exceptions are caught internally). -/
def closeBrowser (s : ServerState) : CallToolResult × ServerState × List Event :=
  let (s1, ev) := closeBrowserResources s
  (okText "🔒 Browser closed and resources cleaned up.", s1, ev)

/-! ## Navigation (tools/navigation.py) -/

/-- Outcomes of the external calls made by `NavigationTools.navigate`:
the `_ensure_browser` environment, the outcome of
`asyncio.wait_for(page.goto(...), 120)` (a timeout surfaces as
`PyExn.timeoutError`), the outcome of `page.title()` bounded by 5 s, and
the value of `page.url` after navigation. -/
structure NavEnv where
  ensure : EnsureEnv
  gotoResult : Except PyExn Unit
  titleResult : Except PyExn String
  pageUrl : String
deriving Repr

/-- The error message of each `except` branch of `navigate`
(navigation.py lines 67-91). -/
def navErrMsg (e : PyExn) (url : String) : String :=
  match e with
  | .timeoutError _ =>
      "❌ Navigation timeout to " ++ url ++
        " after 120 seconds. This often happens on first run when downloading the browser. Please retry the operation."
  | .playwrightError m => "❌ Browser error navigating to " ++ url ++ ": " ++ m
  | e => "❌ Unexpected Error during navigation: " ++ e.msg

/-- The common shape of every `except` branch of `navigate` (navigation.py
lines 67-91): each one calls `self.server._close_browser_resources()` and
returns an error-flagged text response. -/
def navHandleExn (e : PyExn) (url : String) (s : ServerState) (evs : List Event) :
    CallToolResult × ServerState × List Event :=
  let (s1, ev1) := closeBrowserResources s
  (errText (navErrMsg e url), s1, evs ++ ev1)

/-- `NavigationTools.navigate` (navigation.py lines 17-91): ensure the
browser, fail if `self.server.page` is still None (the internal
`RuntimeError("Browser page could not be initialized.")`, line 32, lands
in the catch-all branch), otherwise navigate with
`wait_until` forced to `domcontentloaded` for data: URLs, fetch the title
(falling back to a fixed string on a title timeout), and return the
success template with the resulting URL and title. -/
def navigate (cfg : BrowserConfig) (env : NavEnv) (s : ServerState)
    (url waitUntil : String) : CallToolResult × ServerState × List Event :=
  match ensureBrowser cfg env.ensure s with
  | (Except.error e, s1, ev1) => navHandleExn e url s1 ev1
  | (Except.ok _, s1, ev1) =>
    if s1.page = none then
      navHandleExn (PyExn.runtimeError "Browser page could not be initialized.") url s1 ev1
    else
      let effectiveWait :=
        if strStartsWith (strTrim url) "data:" then "domcontentloaded" else waitUntil
      let ev2 := ev1 ++ [Event.gotoCall url effectiveWait]
      match env.gotoResult with
      | Except.error e => navHandleExn e url s1 ev2
      | Except.ok _ =>
        match env.titleResult with
        | Except.ok title =>
          (okText ("✅ Navigated to: " ++ env.pageUrl ++ "\n📄 Title: " ++ title ++
            "\n🛡️ Stealth mode active"), s1, ev2)
        | Except.error (PyExn.timeoutError _) =>
          (okText ("✅ Navigated to: " ++ env.pageUrl ++ "\n📄 Title: " ++
            "Page title unavailable" ++ "\n🛡️ Stealth mode active"), s1, ev2)
        | Except.error e => navHandleExn e url s1 ev2

/-! ## Interaction tools (tools/interaction.py) -/

/-- A single-quote character, used to reproduce the quoted interpolations
of the source message templates. -/
def sq : String := String.singleton (Char.ofNat 39)

/-- Outcomes of the Playwright calls made by `InteractionTools.click`:
`element.wait_for(state="visible")` and `element.click(button=...)`. -/
structure ClickEnv where
  waitResult : Except PyExn Unit
  clickResult : Except PyExn Unit
deriving Repr

/-- The error text of the two `except` branches of `click`
(interaction.py lines 45-56). -/
def clickErrMsg (selector : String) (e : PyExn) : String :=
  match e with
  | .playwrightError m => "❌ PW err click " ++ selector ++ ": " ++ m
  | e => "❌ Click failed " ++ selector ++ ": " ++ e.msg

/-- `InteractionTools.click` (interaction.py lines 15-56): fail
immediately when `self.server.page` is None (no `_ensure_browser` call),
otherwise resolve the selector (`clickResolve`), wait for visibility and
click; a raising action yields an error-flagged response and leaves the
server state untouched. -/
def click (env : ClickEnv) (s : ServerState) (selector _button : String) :
    CallToolResult × ServerState :=
  if s.page = none then
    (errText "❌ Browser not initialized. Navigate to a page first.", s)
  else
    match env.waitResult with
    | Except.error e => (errText (clickErrMsg selector e), s)
    | Except.ok _ =>
      match env.clickResult with
      | Except.error e => (errText (clickErrMsg selector e), s)
      | Except.ok _ =>
        ({ content := [Content.text ("🖱️ Clicked: " ++ selector ++ " (human-like)")],
           isError := false }, s)

/-- Outcomes of the Playwright calls made by `InteractionTools.type_text`:
`element.wait_for(state="visible")`, `element.clear()` and
`element.type(text, delay=...)`. -/
structure TypeEnv where
  waitResult : Except PyExn Unit
  clearResult : Except PyExn Unit
  typeResult : Except PyExn Unit
deriving Repr

/-- The error text of the two `except` branches of `type_text`
(interaction.py lines 86-97). -/
def typeErrMsg (selector : String) (e : PyExn) : String :=
  match e with
  | .playwrightError m => "❌ PW type err " ++ selector ++ ": " ++ m
  | e => "❌ Type err " ++ selector ++ ": " ++ e.msg

/-- `InteractionTools.type_text` (interaction.py lines 58-97): fail
immediately when `self.server.page` is None, otherwise resolve the
selector (`typeResolve`), wait for visibility, optionally clear, and type;
failures yield an error-flagged response and leave the state untouched. -/
def typeText (env : TypeEnv) (s : ServerState)
    (selector text : String) (_delay : Int) (clear : Bool) :
    CallToolResult × ServerState :=
  if s.page = none then
    (errText "❌ Browser not initialized", s)
  else
    match env.waitResult with
    | Except.error e => (errText (typeErrMsg selector e), s)
    | Except.ok _ =>
      match (if clear then env.clearResult else Except.ok ()) with
      | Except.error e => (errText (typeErrMsg selector e), s)
      | Except.ok _ =>
        match env.typeResult with
        | Except.error e => (errText (typeErrMsg selector e), s)
        | Except.ok _ =>
          (okText ("⌨️ Typed " ++ sq ++ text ++ sq ++ " into " ++ selector ++
            " (human-like timing)"), s)

/-! ## Content tools (tools/content.py) -/

/-- The selector-to-locator scheme shared by `get_content`, `screenshot`
and `wait_for` (content.py lines 34-37 and 89-92, navigation.py lines
110-113): XPath when the selector starts with `//`, otherwise CSS. -/
def xpathOrCss (selector : String) : LocatorKind :=
  if strStartsWith selector "//" then
    LocatorKind.xpath ("xpath=" ++ selector)
  else
    LocatorKind.css selector

/-- Outcomes of the Playwright calls `ContentTools.get_content` can make:
`element.get_attribute` and `element.text_content` may return Python None
(modelled as `Option.none`). -/
structure GetContentEnv where
  getAttributeResult : Except PyExn (Option String)
  innerHtmlResult : Except PyExn String
  textContentResult : Except PyExn (Option String)
  pageContentResult : Except PyExn String
  innerTextResult : Except PyExn String
deriving Repr

/-- The error text of the two `except` branches of `get_content`
(content.py lines 55-66). -/
def getContentErrMsg (e : PyExn) : String :=
  match e with
  | .playwrightError m => "❌ PW err get_content: " ++ m
  | e => "❌ Error get_content: " ++ e.msg

/-- `ContentTools.get_content` (content.py lines 19-66): fail immediately
when `self.server.page` is None (no `_ensure_browser` call anywhere in
this method), otherwise extract attribute / innerHTML / text of the
selected element, or the whole page content / body inner text; the
returned text is `content or ""` (None becomes the empty string).  The
server state is never modified. -/
def getContent (env : GetContentEnv) (s : ServerState)
    (selector attr : Option String) (innerHtml : Bool) :
    CallToolResult × ServerState :=
  if s.page = none then
    (errText "❌ Browser not initialized", s)
  else
    let fetched : Except PyExn String :=
      match selector with
      | some _ =>
        match attr with
        | some _ => Except.map (fun c => c.getD "") env.getAttributeResult
        | none =>
          if innerHtml then env.innerHtmlResult
          else Except.map (fun c => c.getD "") env.textContentResult
      | none =>
        if innerHtml then env.pageContentResult else env.innerTextResult
    match fetched with
    | Except.error e => (errText (getContentErrMsg e), s)
    | Except.ok content => ({ content := [Content.text content], isError := false }, s)

/-! ## JavaScript tools (tools/javascript.py) -/

/-- A Python value returned by `page.evaluate`, as far as the rendering
logic of `execute_js` (javascript.py lines 31-37) distinguishes: None,
a dict/list (carrying its `json.dumps(..., indent=2)` rendering), or any
other value (carrying its `str(...)` rendering). -/
inductive PyVal where
  | pyNone
  | pyJson (rendered : String)
  | pyOther (rendered : String)
deriving DecidableEq, Repr

/-- The `result_str` conversion of `execute_js` (javascript.py lines
31-37). -/
def renderPyVal : PyVal → String
  | .pyNone => "undefined"
  | .pyJson r => r
  | .pyOther r => r

/-- Outcome of `page.evaluate(code)`, as a function of the code string
actually passed (which may have been prefixed with `mw:`). -/
structure JsEnv where
  evalResult : String → Except PyExn PyVal

/-- The error text of the two `except` branches of `execute_js`
(javascript.py lines 49-60). -/
def jsErrMsg (e : PyExn) : String :=
  match e with
  | .playwrightError m => "❌ PW err JS exec: " ++ m
  | e => "❌ JavaScript execution failed: " ++ e.msg

/-- `JavaScriptTools.execute_js` (javascript.py lines 16-60): fail
immediately when `self.server.page` is None; prefix the code with `mw:`
when `main_world` is requested and enabled in the config; evaluate and
render the result.  The server state is never modified. -/
def executeJs (cfg : BrowserConfig) (env : JsEnv) (s : ServerState)
    (code : String) (mainWorld : Bool) : CallToolResult × ServerState :=
  if s.page = none then
    (errText "❌ Browser not initialized", s)
  else
    let effectiveCode :=
      if mainWorld ∧ cfg.main_world_eval then "mw:" ++ code else code
    let worldInfo := if mainWorld then " (main world)" else " (isolated world)"
    match env.evalResult effectiveCode with
    | Except.error e => (errText (jsErrMsg e), s)
    | Except.ok v =>
      (okText ("🔧 JavaScript executed" ++ worldInfo ++ ":\n```\n" ++
        renderPyVal v ++ "\n```"), s)

/-! ## Geolocation tools (tools/geolocation.py) -/

/-- Outcome of `page.set_geolocation({...})`. -/
structure GeoEnv where
  setGeoResult : Except PyExn Unit
deriving Repr

/-- The error text of the two `except` branches of `set_geolocation`
(geolocation.py lines 38-49). -/
def geoErrMsg (e : PyExn) : String :=
  match e with
  | .playwrightError m => "❌ PW err set_geo: " ++ m
  | e => "❌ Failed to set geolocation: " ++ e.msg

/-- `GeolocationTools.set_geolocation` (geolocation.py lines 15-49): fail
immediately when `self.server.page` is None, otherwise set the
geolocation and report it.  Coordinates are rendered by `toString` in
place of Python float formatting; no claim depends on the digits.  The
server state is never modified. -/
def setGeolocation (env : GeoEnv) (s : ServerState)
    (latitude longitude accuracy : Int) : CallToolResult × ServerState :=
  if s.page = none then
    (errText "❌ Browser not initialized", s)
  else
    match env.setGeoResult with
    | Except.error e => (errText (geoErrMsg e), s)
    | Except.ok _ =>
      (okText ("🌍 Geolocation set: " ++ toString latitude ++ ", " ++
        toString longitude ++ " (±" ++ toString accuracy ++ "m)"), s)

/-! ## Base64 (Python stdlib `base64.b64encode`, used by screenshot)

`screenshot` reads the written PNG back and base64-encodes it
(content.py lines 99-100).  Bytes are modelled as `Nat` values below
256. -/

/-- The base64 alphabet. -/
def b64Alphabet : List Char :=
  "ABCDEFGHIJKLMNOPQRSTUVWXYZabcdefghijklmnopqrstuvwxyz0123456789+/".data

/-- The character encoding a six-bit group. -/
def b64Char (n : Nat) : Char := b64Alphabet.getD n (Char.ofNat 65)

/-- The six-bit group a character encodes, if any. -/
def b64Index (c : Char) : Option Nat := b64Alphabet.indexOf? c

/-- The padding character `=`. -/
def padCh : Char := Char.ofNat 61

/-- Standard base64 encoding, three bytes to four characters with `=`
padding. -/
def b64EncodeChunks : List Nat → List Char
  | [] => []
  | [a] => [b64Char (a / 4), b64Char (a % 4 * 16), padCh, padCh]
  | [a, b] =>
    [b64Char (a / 4), b64Char (a % 4 * 16 + b / 16), b64Char (b % 16 * 4), padCh]
  | a :: b :: c :: rest =>
    b64Char (a / 4) :: b64Char (a % 4 * 16 + b / 16) ::
      b64Char (b % 16 * 4 + c / 64) :: b64Char (c % 64) :: b64EncodeChunks rest

/-- `base64.b64encode(...).decode()`: the encoded string. -/
def b64encode (bs : List Nat) : String := String.mk (b64EncodeChunks bs)

/-- Standard base64 decoding, four characters to up to three bytes;
`none` on malformed input. -/
def b64DecodeChunks : List Char → Option (List Nat)
  | [] => some []
  | c1 :: c2 :: c3 :: c4 :: rest =>
    match b64Index c1, b64Index c2 with
    | some s1, some s2 =>
      if c3 = padCh ∧ c4 = padCh ∧ rest = [] then
        some [s1 * 4 + s2 / 16]
      else
        match b64Index c3 with
        | some s3 =>
          if c4 = padCh ∧ rest = [] then
            some [s1 * 4 + s2 / 16, s2 % 16 * 16 + s3 / 4]
          else
            match b64Index c4, b64DecodeChunks rest with
            | some s4, some bs =>
              some ((s1 * 4 + s2 / 16) :: (s2 % 16 * 16 + s3 / 4) ::
                (s3 % 4 * 64 + s4) :: bs)
            | _, _ => none
        | none => none
    | _, _ => none
  | _ => none

/-- Base64 decoding of a string. -/
def b64decode (s : String) : Option (List Nat) := b64DecodeChunks s.data

theorem b64Index_b64Char : ∀ n : Nat, n < 64 → b64Index (b64Char n) = some n := by
  decide

theorem b64Char_ne_pad : ∀ n : Nat, n < 64 → b64Char n ≠ padCh := by
  decide

/-- Base64 round-trip: decoding the encoding of any byte list recovers
it exactly. -/
theorem b64_roundtrip (bs : List Nat) (h : ∀ x ∈ bs, x < 256) :
    b64DecodeChunks (b64EncodeChunks bs) = some bs := by
  induction bs using b64EncodeChunks.induct with
  | case1 =>
    simp [b64EncodeChunks, b64DecodeChunks]
  | case2 a =>
    have ha : a < 256 := h a (by simp)
    have h1 : a / 4 < 64 := by omega
    have h2 : a % 4 * 16 < 64 := by omega
    simp only [b64EncodeChunks, b64DecodeChunks,
      b64Index_b64Char _ h1, b64Index_b64Char _ h2]
    simp only [and_self, if_true]
    simp only [Option.some.injEq, List.cons.injEq, and_true]
    omega
  | case3 a b =>
    have ha : a < 256 := h a (by simp)
    have hb : b < 256 := h b (by simp)
    have h1 : a / 4 < 64 := by omega
    have h2 : a % 4 * 16 + b / 16 < 64 := by omega
    have h3 : b % 16 * 4 < 64 := by omega
    have hne : b64Char (b % 16 * 4) ≠ padCh := b64Char_ne_pad _ h3
    simp only [b64EncodeChunks, b64DecodeChunks,
      b64Index_b64Char _ h1, b64Index_b64Char _ h2, b64Index_b64Char _ h3]
    rw [if_neg (by intro hcon; exact hne hcon.1)]
    simp only [and_self, if_true]
    simp only [Option.some.injEq, List.cons.injEq, and_true]
    omega
  | case4 a b c rest ih =>
    have ha : a < 256 := h a (by simp)
    have hb : b < 256 := h b (by simp)
    have hc : c < 256 := h c (by simp)
    have hrest : ∀ x ∈ rest, x < 256 := fun x hx => h x (by simp [hx])
    have h1 : a / 4 < 64 := by omega
    have h2 : a % 4 * 16 + b / 16 < 64 := by omega
    have h3 : b % 16 * 4 + c / 64 < 64 := by omega
    have h4 : c % 64 < 64 := by omega
    have hne3 : b64Char (b % 16 * 4 + c / 64) ≠ padCh := b64Char_ne_pad _ h3
    have hne4 : b64Char (c % 64) ≠ padCh := b64Char_ne_pad _ h4
    simp only [b64EncodeChunks, b64DecodeChunks,
      b64Index_b64Char _ h1, b64Index_b64Char _ h2, b64Index_b64Char _ h3,
      b64Index_b64Char _ h4]
    rw [if_neg (by intro hcon; exact hne3 hcon.1)]
    rw [if_neg (by intro hcon; exact hne4 hcon.1)]
    rw [ih hrest]
    simp only [Option.some.injEq, List.cons.injEq, and_true]
    omega

/-! ## Filesystem model and screenshot (tools/content.py) -/

/-- The slice of the filesystem the screenshot path touches: a set of
existing directories and a map from paths to byte contents. -/
structure FileSystem where
  dirs : List String
  files : List (String × List Nat)
deriving DecidableEq, Repr

/-- `os.makedirs(d, exist_ok=True)`. -/
def makedirs (d : String) (fs : FileSystem) : FileSystem :=
  if fs.dirs.contains d then fs else { fs with dirs := d :: fs.dirs }

/-- Writing a file (the Playwright screenshot call with `path=...`). -/
def fsWrite (path : String) (bytes : List Nat) (fs : FileSystem) : FileSystem :=
  { fs with files := (path, bytes) :: fs.files }

/-- Reading a file back (`open(filepath, "rb").read()`). -/
def fsRead (path : String) (fs : FileSystem) : Option (List Nat) :=
  (fs.files.find? (fun pb => pb.1 == path)).map Prod.snd

/-- External inputs of `ContentTools.screenshot`: the `time.time()`
timestamp used for a generated filename, the PNG bytes the page produces,
and whether the Playwright screenshot call raises. -/
structure ScreenshotEnv where
  timestamp : Nat
  shotBytes : List Nat
  shotResult : Except PyExn Unit
deriving Repr

/-- The error text of the two `except` branches of `screenshot`
(content.py lines 112-123). -/
def screenshotErrMsg (e : PyExn) : String :=
  match e with
  | .playwrightError m => "❌ PW err screenshot: " ++ m
  | e => "❌ Err screenshot: " ++ e.msg

/-- The effective screenshot filename (content.py lines 81-83): the given
name, or `camoufox_screenshot_<timestamp>.png` when it is absent or empty
(`if not filename`). -/
def screenshotName (filename : Option String) (timestamp : Nat) : String :=
  match filename with
  | none => "camoufox_screenshot_" ++ toString timestamp ++ ".png"
  | some f =>
    if f = "" then "camoufox_screenshot_" ++ toString timestamp ++ ".png" else f

/-- `ContentTools.screenshot` (content.py lines 68-123): fail immediately
when `self.server.page` is None; otherwise create the output directory if
absent, build `filepath = os.path.join(output_dir, filename)`, take the
screenshot (element-targeted when a selector is given, page-targeted
otherwise — both write the PNG bytes to `filepath`), read the file back,
and answer with the base64-encoded image plus a text message naming the
file path.  The server state is never modified. -/
def screenshot (cfg : BrowserConfig) (env : ScreenshotEnv) (s : ServerState)
    (fs : FileSystem) (filename _selector : Option String) (_fullPage : Bool) :
    CallToolResult × ServerState × FileSystem :=
  if s.page = none then
    (errText "❌ Browser not initialized", s, fs)
  else
    let fs1 := makedirs cfg.output_dir fs
    let filepath := cfg.output_dir ++ "/" ++ screenshotName filename env.timestamp
    match env.shotResult with
    | Except.error e => (errText (screenshotErrMsg e), s, fs1)
    | Except.ok _ =>
      let fs2 := fsWrite filepath env.shotBytes fs1
      match fsRead filepath fs2 with
      | none => (errText (screenshotErrMsg (PyExn.otherExn "read failed")), s, fs2)
      | some bytes =>
        ({ content := [Content.image (b64encode bytes) "image/png",
                       Content.text ("📸 Screenshot saved: " ++ filepath)],
           isError := false }, s, fs2)

/-! ## Concrete fixtures used by several verification results -/

/-- The default configuration values of `CamoufoxConfig`
(config/browser_config.py lines 16-45) restricted to the modelled
fields. -/
def cfgDefault : BrowserConfig :=
  { persistent_context := false, user_data_dir := none,
    output_dir := "/tmp/camoufox-mcp", main_world_eval := true,
    captcha_solver := false }

/-- A ready session: browser, instance, context and page handles all
set, no startup in flight. -/
def readyState : ServerState :=
  { browser := some 1, browser_instance := some 1, browser_context := some 2,
    page := some 3, browser_starting := false }

/-- A `_ensure_browser` environment in which every library call
succeeds. -/
def ensureEnvOk : EnsureEnv :=
  { camoufoxId := 1, aenterResult := Except.ok 2, newContextResult := Except.ok 3 }

/-- A navigation environment in which every external call succeeds. -/
def navEnvOk : NavEnv :=
  { ensure := ensureEnvOk, gotoResult := Except.ok (),
    titleResult := Except.ok "Example Domain",
    pageUrl := "https://example.test/" }

/-- A click environment in which every Playwright call succeeds. -/
def clickEnvOk : ClickEnv :=
  { waitResult := Except.ok (), clickResult := Except.ok () }

/-- A type-text environment in which every Playwright call succeeds. -/
def typeEnvOk : TypeEnv :=
  { waitResult := Except.ok (), clearResult := Except.ok (),
    typeResult := Except.ok () }

/-- A JavaScript environment whose evaluation always succeeds. -/
def jsEnvOk : JsEnv := { evalResult := fun _ => Except.ok PyVal.pyNone }

/-- A geolocation environment whose call succeeds. -/
def geoEnvOk : GeoEnv := { setGeoResult := Except.ok () }

/-- A click environment whose visibility wait raises a Playwright
timeout. -/
def clickEnvFail : ClickEnv :=
  { waitResult := Except.error (PyExn.playwrightError "Timeout 30000ms exceeded"),
    clickResult := Except.ok () }

/-- The empty filesystem. -/
def fsEmpty : FileSystem := { dirs := [], files := [] }

/-- A screenshot environment in which every external call succeeds. -/
def scrEnvOk : ScreenshotEnv :=
  { timestamp := 1700000000, shotBytes := [137, 80, 78, 71],
    shotResult := Except.ok () }

/-- A screenshot environment whose Playwright screenshot call raises. -/
def scrEnvFail : ScreenshotEnv :=
  { timestamp := 1700000000, shotBytes := [],
    shotResult := Except.error (PyExn.playwrightError "Timeout 30000ms exceeded") }

/-- A get-content environment in which every Playwright call succeeds. -/
def contentEnvOk : GetContentEnv :=
  { getAttributeResult := Except.ok (some "v"),
    innerHtmlResult := Except.ok "<p>x</p>",
    textContentResult := Except.ok (some "Test text"),
    pageContentResult := Except.ok "<html></html>",
    innerTextResult := Except.ok "Test content" }

/-! ## State-preservation helper lemmas

Each tool body other than `navigate` only reads `self.server.page` and
never assigns any server attribute; these lemmas record that. -/

theorem click_preserves_state (env : ClickEnv) (s : ServerState)
    (sel b : String) : (click env s sel b).2 = s := by
  unfold click
  by_cases hp : s.page = none <;>
    cases h1 : env.waitResult <;> cases h2 : env.clickResult <;>
    simp [hp, h1, h2]

theorem typeText_preserves_state (env : TypeEnv) (s : ServerState)
    (sel t : String) (d : Int) (c : Bool) : (typeText env s sel t d c).2 = s := by
  unfold typeText
  by_cases hp : s.page = none <;>
    cases h1 : env.waitResult <;> cases h2 : env.clearResult <;>
    cases h3 : env.typeResult <;> cases c <;> simp [hp, h1, h2, h3]

theorem getContent_preserves_state (env : GetContentEnv) (s : ServerState)
    (sel attr : Option String) (ih : Bool) : (getContent env s sel attr ih).2 = s := by
  unfold getContent
  by_cases hp : s.page = none
  · simp [hp]
  · cases sel <;> cases attr <;> cases ih <;>
      cases h1 : env.getAttributeResult <;> cases h2 : env.innerHtmlResult <;>
      cases h3 : env.textContentResult <;> cases h4 : env.pageContentResult <;>
      cases h5 : env.innerTextResult <;>
      simp [hp, h1, h2, h3, h4, h5, Except.map]

theorem executeJs_preserves_state (cfg : BrowserConfig) (env : JsEnv)
    (s : ServerState) (code : String) (mw : Bool) :
    (executeJs cfg env s code mw).2 = s := by
  unfold executeJs
  by_cases hp : s.page = none
  · simp [hp]
  · simp only [hp, if_false]
    cases h : env.evalResult (if mw ∧ cfg.main_world_eval then "mw:" ++ code else code) <;>
      simp [h]

theorem setGeolocation_preserves_state (env : GeoEnv) (s : ServerState)
    (la lo ac : Int) : (setGeolocation env s la lo ac).2 = s := by
  unfold setGeolocation
  by_cases hp : s.page = none <;> cases h : env.setGeoResult <;> simp [hp, h]

theorem screenshot_preserves_state (cfg : BrowserConfig) (env : ScreenshotEnv)
    (s : ServerState) (fs : FileSystem) (filename sel : Option String)
    (fp : Bool) : (screenshot cfg env s fs filename sel fp).2.1 = s := by
  unfold screenshot
  by_cases hp : s.page = none
  · simp [hp]
  · cases h : env.shotResult <;>
      simp [hp, h, fsRead, fsWrite, List.find?]

/-! ## Claims -/

/-- C10: a selector that does not start with `//` and contains none of
`.`, `#`, `[`, `>` is resolved by `click` as a text-content match
(`get_by_text`) but by `type_text` as a CSS selector, so the identical
selector argument targets different locator kinds in the two
operations. -/
theorem C10_click_vs_type_selector_divergence (sel : String)
    (h0 : strStartsWith sel "//" = false)
    (h1 : strContainsChar sel chDot = false)
    (h2 : strContainsChar sel chHash = false)
    (h3 : strContainsChar sel chLBracket = false)
    (h4 : strContainsChar sel chGt = false) :
    clickResolve sel = LocatorKind.textMatch sel ∧
    typeResolve sel = LocatorKind.css sel ∧
    clickResolve sel ≠ typeResolve sel := by
  unfold clickResolve typeResolve
  simp [h0, h1, h2, h3, h4]

/-- Witness for C10 at the concrete selector "Submit". -/
theorem C10_witness :
    (strStartsWith "Submit" "//" = false) ∧
    clickResolve "Submit" = LocatorKind.textMatch "Submit" ∧
    typeResolve "Submit" = LocatorKind.css "Submit" ∧
    clickResolve "Submit" ≠ typeResolve "Submit" :=
  ⟨by decide,
   C10_click_vs_type_selector_divergence "Submit" (by decide) (by decide)
     (by decide) (by decide) (by decide)⟩

/-- C1 (code evaluated at the failing input): from the absent session,
`navigate("https://example.test")` with every external library call
succeeding still returns an error-flagged response, because
`_ensure_browser` launches the browser and creates a context but never
creates or stores a page; the page check inside `navigate` then raises
and the handler tears the browser back down.  Exactly one launch call and
one context-creation call occur, no page-creation call and no navigation
call, and the final state is fully absent again. -/
theorem C1_cold_navigate_never_creates_page :
    (navigate cfgDefault navEnvOk initState "https://example.test" "load").1 =
      errText "❌ Unexpected Error during navigation: Browser page could not be initialized." ∧
    (navigate cfgDefault navEnvOk initState "https://example.test" "load").2.1 = initState ∧
    (navigate cfgDefault navEnvOk initState "https://example.test" "load").2.2 =
      [Event.launch, Event.newContext, Event.browserExit] := by
  decide

/-- C2 counterexample: after a successful close the session is absent,
and a subsequent `get_content` call — even with an environment in which
every external call would succeed — returns the Browser-not-initialized
error instead of re-launching; the state is left untouched (no launch
occurs: `get_content` contains no call to `_ensure_browser` at all). -/
theorem C2_counterexample :
    (closeBrowser readyState).1.isError = false ∧
    SessionAbsent (closeBrowser readyState).2.1 ∧
    (getContent contentEnvOk (closeBrowser readyState).2.1 none none false).1 =
      errText "❌ Browser not initialized" ∧
    (getContent contentEnvOk (closeBrowser readyState).2.1 none none false).2 =
      (closeBrowser readyState).2.1 := by
  decide

/-- C2 amended: only `navigate` calls `_ensure_browser`; every other
operation (click, type, get-content, screenshot, execute-js,
set-geolocation) fails immediately with a Browser-not-initialized error
response and an unchanged state whenever the page handle is absent,
performing no launch; `navigate` from an absent session does invoke the
launch path. -/
theorem C2_only_navigate_ensures (s : ServerState) (hp : s.page = none)
    (kE : ClickEnv) (tE : TypeEnv) (cE : GetContentEnv) (jE : JsEnv)
    (gE : GeoEnv) (cfg : BrowserConfig) (nE : NavEnv)
    (sel txt code url w : String) (d la lo ac : Int) (c mw ih : Bool)
    (so ao : Option String)
    (scE : ScreenshotEnv) (fs : FileSystem) (fn sc : Option String) (fpb : Bool)
    (hAbs : SessionAbsent s) (hCfg : cfg.persistent_context = false) :
    (click kE s sel txt).1 =
      errText "❌ Browser not initialized. Navigate to a page first." ∧
    (click kE s sel txt).2 = s ∧
    (typeText tE s sel txt d c).1 = errText "❌ Browser not initialized" ∧
    (typeText tE s sel txt d c).2 = s ∧
    (getContent cE s so ao ih).1 = errText "❌ Browser not initialized" ∧
    (getContent cE s so ao ih).2 = s ∧
    (screenshot cfg scE s fs fn sc fpb).1 = errText "❌ Browser not initialized" ∧
    (screenshot cfg scE s fs fn sc fpb).2.1 = s ∧
    (screenshot cfg scE s fs fn sc fpb).2.2 = fs ∧
    (executeJs cfg jE s code mw).1 = errText "❌ Browser not initialized" ∧
    (executeJs cfg jE s code mw).2 = s ∧
    (setGeolocation gE s la lo ac).1 = errText "❌ Browser not initialized" ∧
    (setGeolocation gE s la lo ac).2 = s ∧
    Event.launch ∈ (navigate cfg nE s url w).2.2 := by
  obtain ⟨hb, hbi, hc, hpg, hst⟩ := hAbs
  refine ⟨?_, ?_, ?_, ?_, ?_, ?_, ?_, ?_, ?_, ?_, ?_, ?_, ?_, ?_⟩
  · unfold click; simp [hp]
  · exact click_preserves_state kE s sel txt
  · unfold typeText; simp [hp]
  · exact typeText_preserves_state tE s sel txt d c
  · unfold getContent; simp [hp]
  · exact getContent_preserves_state cE s so ao ih
  · unfold screenshot; simp [hp]
  · exact screenshot_preserves_state cfg scE s fs fn sc fpb
  · unfold screenshot; simp [hp]
  · unfold executeJs; simp [hp]
  · exact executeJs_preserves_state cfg jE s code mw
  · unfold setGeolocation; simp [hp]
  · exact setGeolocation_preserves_state gE s la lo ac
  · unfold navigate ensureBrowser
    simp only [hc, hst, hCfg]
    cases h1 : nE.ensure.aenterResult <;>
      cases h2 : nE.ensure.newContextResult <;>
      simp [h1, h2, ensureHandleExn, navHandleExn, hCfg, hp]

/-- Witness for the amended C2 at concrete inputs: from the absent
session every non-navigate operation fails with the
Browser-not-initialized error, and navigate launches. -/
theorem C2_witness :
    (click clickEnvOk initState "Submit" "hi").1 =
      errText "❌ Browser not initialized. Navigate to a page first." ∧
    (click clickEnvOk initState "Submit" "hi").2 = initState ∧
    (typeText typeEnvOk initState "Submit" "hi" 100 false).1 =
      errText "❌ Browser not initialized" ∧
    (typeText typeEnvOk initState "Submit" "hi" 100 false).2 = initState ∧
    (getContent contentEnvOk initState none none false).1 =
      errText "❌ Browser not initialized" ∧
    (getContent contentEnvOk initState none none false).2 = initState ∧
    (screenshot cfgDefault scrEnvOk initState fsEmpty none none false).1 =
      errText "❌ Browser not initialized" ∧
    (screenshot cfgDefault scrEnvOk initState fsEmpty none none false).2.1 =
      initState ∧
    (screenshot cfgDefault scrEnvOk initState fsEmpty none none false).2.2 =
      fsEmpty ∧
    (executeJs cfgDefault jsEnvOk initState "1+1" false).1 =
      errText "❌ Browser not initialized" ∧
    (executeJs cfgDefault jsEnvOk initState "1+1" false).2 = initState ∧
    (setGeolocation geoEnvOk initState 1 2 100).1 =
      errText "❌ Browser not initialized" ∧
    (setGeolocation geoEnvOk initState 1 2 100).2 = initState ∧
    Event.launch ∈
      (navigate cfgDefault navEnvOk initState "https://example.test" "load").2.2 :=
  C2_only_navigate_ensures initState rfl clickEnvOk typeEnvOk contentEnvOk
    jsEnvOk geoEnvOk cfgDefault navEnvOk "Submit" "hi" "1+1"
    "https://example.test" "load" 100 1 2 100 false false false none none
    scrEnvOk fsEmpty none none false (by decide) rfl

/-- C3 counterexample: `navigate` violates operation-failure isolation.
From the concrete ready session, a navigation whose `page.goto` raises a
Playwright error (every other external call succeeding) returns an
error-flagged response but also tears the session down: the page handle
is nulled and the state is no longer the prior ready state, contradicting
the claim that every operation leaves a ready session unchanged on action
failure. -/
theorem C3_counterexample :
    (navigate cfgDefault
      { ensure := ensureEnvOk,
        gotoResult := Except.error (PyExn.playwrightError "Timeout 120000ms exceeded"),
        titleResult := Except.ok "t", pageUrl := "https://example.test/" }
      readyState "https://example.test" "load").1.isError = true ∧
    (navigate cfgDefault
      { ensure := ensureEnvOk,
        gotoResult := Except.error (PyExn.playwrightError "Timeout 120000ms exceeded"),
        titleResult := Except.ok "t", pageUrl := "https://example.test/" }
      readyState "https://example.test" "load").2.1.page = none ∧
    (navigate cfgDefault
      { ensure := ensureEnvOk,
        gotoResult := Except.error (PyExn.playwrightError "Timeout 120000ms exceeded"),
        titleResult := Except.ok "t", pageUrl := "https://example.test/" }
      readyState "https://example.test" "load").2.1 ≠ readyState := by
  refine ⟨?_, ?_, ?_⟩ <;> decide

/-- C3 amended: for every operation except `navigate` (click, type,
get-content, screenshot, execute-js, set-geolocation), a failing action
against a ready session leaves the server state unchanged — same page
handle — and is reported as an error-flagged response, and a subsequent
click whose action succeeds returns success; `navigate` instead tears
down the browser resources (page handle nulled) on any action failure. -/
theorem C3_isolation_except_navigate (s : ServerState) (p q : Nat)
    (hp : s.page = some p) (hc : s.browser_context = some q)
    (hst : s.browser_starting = false)
    (kE : ClickEnv) (tE : TypeEnv) (cE : GetContentEnv) (jE : JsEnv)
    (gE : GeoEnv) (cfg : BrowserConfig) (sel txt code url w : String)
    (d la lo ac : Int) (c mw ih : Bool) (so ao : Option String)
    (scE : ScreenshotEnv) (fs : FileSystem) (fn sc : Option String)
    (fpb : Bool) :
    (click kE s sel txt).2 = s ∧
    (typeText tE s sel txt d c).2 = s ∧
    (getContent cE s so ao ih).2 = s ∧
    (screenshot cfg scE s fs fn sc fpb).2.1 = s ∧
    (executeJs cfg jE s code mw).2 = s ∧
    (setGeolocation gE s la lo ac).2 = s ∧
    (∀ e, kE.waitResult = Except.error e → (click kE s sel txt).1.isError = true) ∧
    (∀ e, scE.shotResult = Except.error e →
      (screenshot cfg scE s fs fn sc fpb).1.isError = true) ∧
    (click clickEnvOk s sel txt).1.isError = false ∧
    (∀ e nE, nE.gotoResult = Except.error e →
      (navigate cfg nE s url w).1.isError = true ∧
      (navigate cfg nE s url w).2.1.page = none) := by
  have hpn : ¬ s.page = none := by simp [hp]
  refine ⟨click_preserves_state kE s sel txt,
    typeText_preserves_state tE s sel txt d c,
    getContent_preserves_state cE s so ao ih,
    screenshot_preserves_state cfg scE s fs fn sc fpb,
    executeJs_preserves_state cfg jE s code mw,
    setGeolocation_preserves_state gE s la lo ac, ?_, ?_, ?_, ?_⟩
  · intro e he
    unfold click
    simp [hpn, he, errText]
  · intro e he
    unfold screenshot
    simp [hpn, he, errText]
  · unfold click clickEnvOk
    simp [hpn, okText]
  · intro e nE he
    unfold navigate ensureBrowser
    have hncond : ¬ (s.browser_context = none ∧ s.browser_starting = false) := by
      simp [hc]
    cases hbrow : s.browser <;>
      simp [hncond, hc, hst, hp, he, navHandleExn, closeBrowserResources, errText,
        hbrow]

/-- Witness for the amended C3 at the concrete ready session: a click
whose wait raises leaves the state unchanged and flags the error, a
succeeding click then succeeds, and navigate on goto failure nulls the
page handle. -/
theorem C3_witness :
    (click clickEnvFail readyState "#btn" "left").2 = readyState ∧
    (typeText typeEnvOk readyState "#btn" "left" 100 false).2 = readyState ∧
    (getContent contentEnvOk readyState none none false).2 = readyState ∧
    (screenshot cfgDefault scrEnvFail readyState fsEmpty none none false).2.1 =
      readyState ∧
    (executeJs cfgDefault jsEnvOk readyState "1+1" false).2 = readyState ∧
    (setGeolocation geoEnvOk readyState 1 2 100).2 = readyState ∧
    (∀ e, clickEnvFail.waitResult = Except.error e →
      (click clickEnvFail readyState "#btn" "left").1.isError = true) ∧
    (∀ e, scrEnvFail.shotResult = Except.error e →
      (screenshot cfgDefault scrEnvFail readyState fsEmpty none none
        false).1.isError = true) ∧
    (click clickEnvOk readyState "#btn" "left").1.isError = false ∧
    (∀ e nE, nE.gotoResult = Except.error e →
      (navigate cfgDefault nE readyState "https://example.test" "load").1.isError = true ∧
      (navigate cfgDefault nE readyState "https://example.test" "load").2.1.page = none) :=
  C3_isolation_except_navigate readyState 3 2 rfl rfl rfl clickEnvFail
    typeEnvOk contentEnvOk jsEnvOk geoEnvOk cfgDefault "#btn" "left" "1+1"
    "https://example.test" "load" 100 1 2 100 false false false none none
    scrEnvFail fsEmpty none none false

/-- C4: when the launch call (`async with self.browser`) or the context
creation (`new_context()`) raises during `_ensure_browser` from an absent
session, the session is fully rolled back — the resulting state is the
fresh absent state with both handles null and the starting flag clear —
and a typed RuntimeError wrapping the cause is re-raised; moreover, for
every environment the starting flag is clear on exit (never left in
Starting), and a subsequent `_ensure_browser` call from the rolled-back
state performs a fresh launch (its trace contains a launch event) rather
than being a no-op. -/
theorem C4_rollback_on_startup_failure (cfg : BrowserConfig)
    (env : EnsureEnv) (s : ServerState) (e : PyExn)
    (hAbs : SessionAbsent s)
    (hCfg : ¬ (cfg.persistent_context = true ∧ cfg.user_data_dir = none))
    (hFail : env.aenterResult = Except.error e ∨
      (cfg.persistent_context = false ∧ env.newContextResult = Except.error e ∧
        ∃ n, env.aenterResult = Except.ok n)) :
    (ensureBrowser cfg env s).1 = Except.error (wrapStartupExn e) ∧
    (ensureBrowser cfg env s).2.1 = initState ∧
    (∀ env0 : EnsureEnv, (ensureBrowser cfg env0 s).2.1.browser_starting = false) ∧
    (∀ env2 : EnsureEnv,
      Event.launch ∈ (ensureBrowser cfg env2 (ensureBrowser cfg env s).2.1).2.2) := by
  obtain ⟨hb, hbi, hc, hpg, hst⟩ := hAbs
  have hCfg2 : ¬ (cfg.persistent_context = true ∧ cfg.user_data_dir = none) := hCfg
  have hmain : (ensureBrowser cfg env s).1 = Except.error (wrapStartupExn e) ∧
      (ensureBrowser cfg env s).2.1 = initState := by
    unfold ensureBrowser
    rcases hFail with hae | ⟨hpc, hnc, n, hae⟩
    · simp [hc, hst, hCfg2, hae, ensureHandleExn, cleanupBrowserOnError, initState]
    · simp [hc, hst, hCfg2, hpc, hae, hnc, ensureHandleExn, cleanupBrowserOnError,
        initState]
  refine ⟨hmain.1, hmain.2, ?_, ?_⟩
  · intro env0
    unfold ensureBrowser
    by_cases hpc : cfg.persistent_context = true
    · have hdir : ¬ cfg.user_data_dir = none := fun h => hCfg2 ⟨hpc, h⟩
      cases h1 : env0.aenterResult <;>
        simp [hc, hst, hpc, hdir, h1, ensureHandleExn, cleanupBrowserOnError]
    · have hpc2 : cfg.persistent_context = false := by
        cases h : cfg.persistent_context
        · rfl
        · exact absurd h hpc
      cases h1 : env0.aenterResult <;> cases h2 : env0.newContextResult <;>
        simp [hc, hst, hpc2, h1, h2, ensureHandleExn, cleanupBrowserOnError]
  · intro env2
    rw [hmain.2]
    unfold ensureBrowser
    by_cases hpc : cfg.persistent_context = true
    · have hdir : ¬ cfg.user_data_dir = none := fun h => hCfg2 ⟨hpc, h⟩
      cases h1 : env2.aenterResult <;>
        simp [initState, hpc, hdir, h1, ensureHandleExn, cleanupBrowserOnError]
    · have hpc2 : cfg.persistent_context = false := by
        cases h : cfg.persistent_context
        · rfl
        · exact absurd h hpc
      cases h1 : env2.aenterResult <;> cases h2 : env2.newContextResult <;>
        simp [initState, hpc2, h1, h2, ensureHandleExn, cleanupBrowserOnError]

/-- Witness for C4 at a concrete failing launch. -/
theorem C4_witness :
    (ensureBrowser cfgDefault
      { camoufoxId := 7,
        aenterResult := Except.error (PyExn.playwrightError "Executable not found"),
        newContextResult := Except.ok 1 } initState).1 =
      Except.error (wrapStartupExn (PyExn.playwrightError "Executable not found")) ∧
    (ensureBrowser cfgDefault
      { camoufoxId := 7,
        aenterResult := Except.error (PyExn.playwrightError "Executable not found"),
        newContextResult := Except.ok 1 } initState).2.1 = initState ∧
    (∀ env0 : EnsureEnv,
      (ensureBrowser cfgDefault env0 initState).2.1.browser_starting = false) ∧
    (∀ env2 : EnsureEnv,
      Event.launch ∈ (ensureBrowser cfgDefault env2
        (ensureBrowser cfgDefault
          { camoufoxId := 7,
            aenterResult := Except.error (PyExn.playwrightError "Executable not found"),
            newContextResult := Except.ok 1 } initState).2.1).2.2) :=
  C4_rollback_on_startup_failure cfgDefault
    { camoufoxId := 7,
      aenterResult := Except.error (PyExn.playwrightError "Executable not found"),
      newContextResult := Except.ok 1 } initState
    (PyExn.playwrightError "Executable not found") (by decide) (by decide)
    (Or.inl rfl)

/-- C7: close is idempotent.  From any state with no startup in flight,
the close operation succeeds (non-error response), leaves the session
absent (every handle null, starting flag clear), a second close also
succeeds, changes nothing and performs no release calls, and close on an
already-absent session is a no-op success. -/
theorem C7_close_idempotent (s : ServerState) (h : s.browser_starting = false)
    (hInv : s.browser = none → s.browser_instance = none ∧ s.browser_context = none) :
    (closeBrowser s).1.isError = false ∧
    SessionAbsent (closeBrowser s).2.1 ∧
    (closeBrowser (closeBrowser s).2.1).1.isError = false ∧
    (closeBrowser (closeBrowser s).2.1).2.1 = (closeBrowser s).2.1 ∧
    (closeBrowser (closeBrowser s).2.1).2.2 = [] ∧
    (SessionAbsent s → (closeBrowser s).2.1 = s ∧ (closeBrowser s).2.2 = []) := by
  unfold closeBrowser closeBrowserResources
  rcases hpg : s.page with _ | pv <;> rcases hb : s.browser with _ | bv
  · obtain ⟨hbi, hcx⟩ := hInv hb
    simp [okText, SessionAbsent, h, hpg, hb, hbi, hcx]
  · simp [okText, SessionAbsent, h, hpg, hb]
  · obtain ⟨hbi, hcx⟩ := hInv hb
    simp [okText, SessionAbsent, h, hpg, hb, hbi, hcx]
  · simp [okText, SessionAbsent, h, hpg, hb]

/-- Witness for C7 at the concrete ready session. -/
theorem C7_witness :
    (closeBrowser readyState).1.isError = false ∧
    SessionAbsent (closeBrowser readyState).2.1 ∧
    (closeBrowser (closeBrowser readyState).2.1).1.isError = false ∧
    (closeBrowser (closeBrowser readyState).2.1).2.1 = (closeBrowser readyState).2.1 ∧
    (closeBrowser (closeBrowser readyState).2.1).2.2 = [] ∧
    (SessionAbsent readyState →
      (closeBrowser readyState).2.1 = readyState ∧
      (closeBrowser readyState).2.2 = []) :=
  C7_close_idempotent readyState (by decide) (by decide)

/-- C8: screenshot round-trip.  Against a ready session, for a page
producing any list of PNG bytes, the screenshot operation creates the
output directory if absent, writes exactly those bytes to
`output_dir/<filename-or-generated-timestamp-name>`, and returns a
non-error response whose image content base64-decodes to exactly those
bytes and whose companion text message contains the written file path. -/
theorem C8_screenshot_roundtrip (cfg : BrowserConfig) (env : ScreenshotEnv)
    (s : ServerState) (fs : FileSystem) (p : Nat) (filename sel : Option String)
    (fp : Bool)
    (hp : s.page = some p)
    (hbytes : ∀ x ∈ env.shotBytes, x < 256)
    (hok : env.shotResult = Except.ok ()) :
    (screenshot cfg env s fs filename sel fp).1.isError = false ∧
    (screenshot cfg env s fs filename sel fp).1.content =
      [Content.image (b64encode env.shotBytes) "image/png",
       Content.text ("📸 Screenshot saved: " ++
         (cfg.output_dir ++ "/" ++ screenshotName filename env.timestamp))] ∧
    b64decode (b64encode env.shotBytes) = some env.shotBytes ∧
    fsRead (cfg.output_dir ++ "/" ++ screenshotName filename env.timestamp)
      (screenshot cfg env s fs filename sel fp).2.2 = some env.shotBytes ∧
    cfg.output_dir ∈ (screenshot cfg env s fs filename sel fp).2.2.dirs ∧
    (∃ pre post, ("📸 Screenshot saved: " ++
        (cfg.output_dir ++ "/" ++ screenshotName filename env.timestamp)) =
      pre ++ (cfg.output_dir ++ "/" ++ screenshotName filename env.timestamp) ++ post) := by
  have hpn : ¬ s.page = none := by simp [hp]
  have hshot :
      screenshot cfg env s fs filename sel fp =
      ({ content := [Content.image (b64encode env.shotBytes) "image/png",
                     Content.text ("📸 Screenshot saved: " ++
                       (cfg.output_dir ++ "/" ++ screenshotName filename env.timestamp))],
         isError := false }, s,
       fsWrite (cfg.output_dir ++ "/" ++ screenshotName filename env.timestamp)
         env.shotBytes (makedirs cfg.output_dir fs)) := by
    unfold screenshot
    simp [hpn, hok, fsRead, fsWrite]
  refine ⟨by rw [hshot], by rw [hshot], ?_, ?_, ?_, ?_⟩
  · unfold b64decode b64encode
    exact b64_roundtrip env.shotBytes hbytes
  · rw [hshot]
    simp [fsRead, fsWrite]
  · rw [hshot]
    unfold fsWrite makedirs
    by_cases hd : cfg.output_dir ∈ fs.dirs <;> simp [hd]
  · exact ⟨"📸 Screenshot saved: ", "", by simp⟩

/-- Witness for C8: a concrete four-byte PNG header round-trips through
the screenshot operation. -/
theorem C8_witness :
    (screenshot cfgDefault
      { timestamp := 1700000000, shotBytes := [137, 80, 78, 71],
        shotResult := Except.ok () }
      readyState { dirs := [], files := [] } (some "shot.png") none false).1.isError = false ∧
    (screenshot cfgDefault
      { timestamp := 1700000000, shotBytes := [137, 80, 78, 71],
        shotResult := Except.ok () }
      readyState { dirs := [], files := [] } (some "shot.png") none false).1.content =
      [Content.image (b64encode [137, 80, 78, 71]) "image/png",
       Content.text ("📸 Screenshot saved: " ++
         (cfgDefault.output_dir ++ "/" ++ screenshotName (some "shot.png") 1700000000))] ∧
    b64decode (b64encode [137, 80, 78, 71]) = some [137, 80, 78, 71] ∧
    fsRead (cfgDefault.output_dir ++ "/" ++ screenshotName (some "shot.png") 1700000000)
      (screenshot cfgDefault
        { timestamp := 1700000000, shotBytes := [137, 80, 78, 71],
          shotResult := Except.ok () }
        readyState { dirs := [], files := [] } (some "shot.png") none false).2.2 =
      some [137, 80, 78, 71] ∧
    cfgDefault.output_dir ∈
      (screenshot cfgDefault
        { timestamp := 1700000000, shotBytes := [137, 80, 78, 71],
          shotResult := Except.ok () }
        readyState { dirs := [], files := [] } (some "shot.png") none false).2.2.dirs ∧
    (∃ pre post, ("📸 Screenshot saved: " ++
        (cfgDefault.output_dir ++ "/" ++ screenshotName (some "shot.png") 1700000000)) =
      pre ++ (cfgDefault.output_dir ++ "/" ++
        screenshotName (some "shot.png") 1700000000) ++ post) :=
  C8_screenshot_roundtrip cfgDefault
    { timestamp := 1700000000, shotBytes := [137, 80, 78, 71],
      shotResult := Except.ok () }
    readyState { dirs := [], files := [] } 3 (some "shot.png") none false
    (by decide) (by decide) rfl

/-! ## Interleaved cooperative startup (server/base.py lines 415-508)

Two cooperative tasks call `_ensure_browser` concurrently.  Atomic blocks
between `await` suspension points:

* `start` — the guard (lines 417-418): reading `browser_context` and
  `_browser_starting`, and, when taking the launch path, setting the
  flag and building the `AsyncCamoufox` object (lines 418-458) — all
  synchronous, no `await` in between.
* `claimed → launching` — issuing the launch call
  (`async with self.browser`, line 464).
* `launching → doneOk` — the launch returned: the context is created
  and stored and the starting flag cleared (lines 467-476).  (In the
  source a logging call and the implicit `__aexit__` sit between the
  context assignment and clearing the flag; during that window
  `browser_context` is already set, so any other task observes
  readiness either way, and no branch that could launch is enabled.)
* `polling n` — one iteration of the wait loop (lines 503-506);
  `n` is the remaining iteration budget.

The scenario is the success scenario of the spec property (the launch
completes); the stuck-startup scenario is modelled separately by
`pollStartupAux`. -/

/-- Program counter of one cooperative task inside `_ensure_browser`. -/
inductive TaskPC where
  | start
  | claimed
  | launching
  | polling (fuel : Nat)
  | doneOk
  | doneErr
deriving DecidableEq, Repr

/-- Shared server attributes read by the guard (`browser_context`,
`_browser_starting`), the two task program counters, and a per-task
record of whether that task has issued a launch call. -/
structure SysState where
  ctx : Option Nat
  starting : Bool
  pcA : TaskPC
  pcB : TaskPC
  launchedA : Bool
  launchedB : Bool
deriving DecidableEq, Repr

/-- Both tasks enter while the session is absent. -/
def sysInit : SysState :=
  { ctx := none, starting := false, pcA := TaskPC.start, pcB := TaskPC.start,
    launchedA := false, launchedB := false }

/-- One atomic step of a task: given the shared attributes and the task
program counter, the new shared attributes, new program counter, and
whether this step issued a launch call. -/
def taskStep (ctx : Option Nat) (starting : Bool) (pc : TaskPC) :
    Option Nat × Bool × TaskPC × Bool :=
  match pc with
  | TaskPC.start =>
    if ctx.isSome then (ctx, starting, TaskPC.doneOk, false)
    else if starting then (ctx, starting, TaskPC.polling 50, false)
    else (ctx, true, TaskPC.claimed, false)
  | TaskPC.claimed => (ctx, starting, TaskPC.launching, true)
  | TaskPC.launching => (some 0, false, TaskPC.doneOk, false)
  | TaskPC.polling fuel =>
    if ctx.isSome then (ctx, starting, TaskPC.doneOk, false)
    else
      match fuel with
      | 0 => (ctx, starting, TaskPC.doneErr, false)
      | f + 1 => (ctx, starting, TaskPC.polling f, false)
  | TaskPC.doneOk => (ctx, starting, TaskPC.doneOk, false)
  | TaskPC.doneErr => (ctx, starting, TaskPC.doneErr, false)

/-- Run one step of task A. -/
def runTaskA (s : SysState) : SysState :=
  { ctx := (taskStep s.ctx s.starting s.pcA).1,
    starting := (taskStep s.ctx s.starting s.pcA).2.1,
    pcA := (taskStep s.ctx s.starting s.pcA).2.2.1,
    pcB := s.pcB,
    launchedA := s.launchedA || (taskStep s.ctx s.starting s.pcA).2.2.2,
    launchedB := s.launchedB }

/-- Run one step of task B. -/
def runTaskB (s : SysState) : SysState :=
  { ctx := (taskStep s.ctx s.starting s.pcB).1,
    starting := (taskStep s.ctx s.starting s.pcB).2.1,
    pcA := s.pcA,
    pcB := (taskStep s.ctx s.starting s.pcB).2.2.1,
    launchedA := s.launchedA,
    launchedB := s.launchedB || (taskStep s.ctx s.starting s.pcB).2.2.2 }

/-- Scheduler step: `true` runs task A, `false` runs task B. -/
def schedStep (t : Bool) (s : SysState) : SysState :=
  if t then runTaskA s else runTaskB s

/-- Run a whole schedule. -/
def runSched : List Bool → SysState → SysState
  | [], s => s
  | t :: ts, s => runSched ts (schedStep t s)

/-- A task is busy when it holds the startup claim (it has set the
starting flag and not yet cleared it). -/
def busy : TaskPC → Bool
  | TaskPC.claimed => true
  | TaskPC.launching => true
  | _ => false

/-- The inductive invariant of the two-task startup system. -/
def Inv (s : SysState) : Prop :=
  s.starting = (busy s.pcA || busy s.pcB) ∧
  ¬ (busy s.pcA = true ∧ busy s.pcB = true) ∧
  (s.pcA = TaskPC.claimed → s.launchedA = false) ∧
  (s.pcB = TaskPC.claimed → s.launchedB = false) ∧
  (s.pcA = TaskPC.launching → s.launchedA = true) ∧
  (s.pcB = TaskPC.launching → s.launchedB = true) ∧
  (s.launchedA = true → busy s.pcA = true ∨ s.ctx.isSome = true) ∧
  (s.launchedB = true → busy s.pcB = true ∨ s.ctx.isSome = true) ∧
  ((s.pcA = TaskPC.claimed ∨ s.pcB = TaskPC.claimed) → s.ctx = none) ∧
  (s.pcA = TaskPC.doneOk → s.ctx.isSome = true) ∧
  (s.pcB = TaskPC.doneOk → s.ctx.isSome = true) ∧
  (s.ctx.isSome = true → s.launchedA = true ∨ s.launchedB = true) ∧
  ¬ (s.launchedA = true ∧ s.launchedB = true)

theorem inv_runTaskA (s : SysState) (h : Inv s) : Inv (runTaskA s) := by
  obtain ⟨i1, i2, i3, i4, i5, i6, i7, i8, i9, i10, i11, i12, i13⟩ := h
  cases hpc : s.pcA <;>
    rcases hctx : s.ctx with _ | v <;>
    (try (rename_i fuel; cases fuel)) <;>
    simp_all [runTaskA, taskStep, Inv, busy] <;>
    (try cases hpcB : s.pcB) <;>
    simp_all

theorem inv_runTaskB (s : SysState) (h : Inv s) : Inv (runTaskB s) := by
  obtain ⟨i1, i2, i3, i4, i5, i6, i7, i8, i9, i10, i11, i12, i13⟩ := h
  cases hpc : s.pcB <;>
    rcases hctx : s.ctx with _ | v <;>
    (try (rename_i fuel; cases fuel)) <;>
    simp_all [runTaskB, taskStep, Inv, busy] <;>
    (try cases hpcA : s.pcA) <;>
    simp_all

theorem inv_runSched (sched : List Bool) (s : SysState) (h : Inv s) :
    Inv (runSched sched s) := by
  induction sched generalizing s with
  | nil => exact h
  | cons t ts ih =>
    cases t
    · exact ih _ (inv_runTaskB s h)
    · exact ih _ (inv_runTaskA s h)

theorem inv_init : Inv sysInit := by
  simp [Inv, sysInit, busy]

/-- C5: no double launch under interleaving.  For every interleaving of
two cooperative tasks both entering `_ensure_browser` from the absent
session, at most one launch call is ever issued; and whenever both tasks
have finished successfully (the second having observed the ready
context, possibly after its bounded polling wait), exactly one of them
issued the launch. -/
theorem C5_no_double_launch (sched : List Bool) :
    (¬ ((runSched sched sysInit).launchedA = true ∧
        (runSched sched sysInit).launchedB = true)) ∧
    ((runSched sched sysInit).pcA = TaskPC.doneOk →
     (runSched sched sysInit).pcB = TaskPC.doneOk →
      ((runSched sched sysInit).launchedA = true ∧
        (runSched sched sysInit).launchedB = false) ∨
      ((runSched sched sysInit).launchedA = false ∧
        (runSched sched sysInit).launchedB = true)) := by
  have hinv : Inv (runSched sched sysInit) := inv_runSched sched sysInit inv_init
  obtain ⟨i1, i2, i3, i4, i5, i6, i7, i8, i9, i10, i11, i12, i13⟩ := hinv
  refine ⟨i13, ?_⟩
  intro hA hB
  have hctx : (runSched sched sysInit).ctx.isSome = true := i10 hA
  rcases i12 hctx with hla | hlb
  · left
    refine ⟨hla, ?_⟩
    cases hlbv : (runSched sched sysInit).launchedB
    · rfl
    · exact absurd ⟨hla, hlbv⟩ i13
  · right
    refine ⟨?_, hlb⟩
    cases hlav : (runSched sched sysInit).launchedA
    · rfl
    · exact absurd ⟨hlav, hlb⟩ i13

/-- Witness for C5: the schedule where task A runs its three startup
steps and then task B observes the ready context. -/
theorem C5_witness :
    (runSched [true, true, true, false] sysInit).pcA = TaskPC.doneOk ∧
    (runSched [true, true, true, false] sysInit).pcB = TaskPC.doneOk ∧
    (((runSched [true, true, true, false] sysInit).launchedA = true ∧
      (runSched [true, true, true, false] sysInit).launchedB = false) ∨
     ((runSched [true, true, true, false] sysInit).launchedA = false ∧
      (runSched [true, true, true, false] sysInit).launchedB = true)) :=
  ⟨by decide, by decide,
   (C5_no_double_launch [true, true, true, false]).2 (by decide) (by decide)⟩

/-! ## The bounded wait of a second caller (base.py lines 501-508) -/

/-- The polling interval, milliseconds (`await asyncio.sleep(0.1)`). -/
def pollIntervalMs : Nat := 100

/-- The iteration budget of the wait loop (`for _ in range(50)`). -/
def pollMaxIters : Nat := 50

/-- The wait loop of `_ensure_browser` for a caller that finds another
task mid-startup: `ctxAt i` is the value of `browser_context` observed
at the i-th check.  Returns the outcome and the number of sleeps
performed.  With `fuel` remaining iterations, check; if ready, stop; if
the budget is exhausted, raise
`RuntimeError("Browser startup failed or timed out")`; otherwise sleep
and continue. -/
def pollStartupAux (ctxAt : Nat → Option Nat) : Nat → Nat → Except PyExn Unit × Nat
  | 0, i =>
    (if (ctxAt i).isSome then Except.ok ()
     else Except.error (PyExn.runtimeError "Browser startup failed or timed out"), i)
  | f + 1, i =>
    if (ctxAt i).isSome then (Except.ok (), i)
    else pollStartupAux ctxAt f (i + 1)

/-- The whole wait (base.py lines 503-508). -/
def pollStartup (ctxAt : Nat → Option Nat) : Except PyExn Unit × Nat :=
  pollStartupAux ctxAt pollMaxIters 0

theorem pollStartupAux_sleep_bound (ctxAt : Nat → Option Nat) :
    ∀ f i, (pollStartupAux ctxAt f i).2 ≤ i + f := by
  intro f
  induction f with
  | zero => intro i; simp [pollStartupAux]
  | succ f ih =>
    intro i
    unfold pollStartupAux
    by_cases hc : (ctxAt i).isSome
    · simp [hc]
    · simp only [hc, if_false, Bool.false_eq_true]
      calc (pollStartupAux ctxAt f (i + 1)).2 ≤ i + 1 + f := ih (i + 1)
        _ = i + (f + 1) := by omega

theorem pollStartupAux_stuck (ctxAt : Nat → Option Nat)
    (hstuck : ∀ i, ctxAt i = none) :
    ∀ f i, pollStartupAux ctxAt f i =
      (Except.error (PyExn.runtimeError "Browser startup failed or timed out"), i + f) := by
  intro f
  induction f with
  | zero => intro i; simp [pollStartupAux, hstuck]
  | succ f ih =>
    intro i
    unfold pollStartupAux
    simp only [hstuck, Option.isSome_none, Bool.false_eq_true, if_false]
    rw [ih (i + 1)]
    congr 1
    omega

/-- C6: a second caller that finds a startup in flight polls at a fixed
100 ms interval with an iteration budget of 50 (a 5-second ceiling).  If
the context never becomes ready it performs exactly 50 sleeps and
terminates with the startup-timeout RuntimeError rather than waiting
longer; and under every environment the number of sleeps is bounded by
the budget. -/
theorem C6_bounded_wait_timeout (ctxAt : Nat → Option Nat)
    (hstuck : ∀ i, ctxAt i = none) :
    (pollStartup ctxAt).1 =
      Except.error (PyExn.runtimeError "Browser startup failed or timed out") ∧
    (pollStartup ctxAt).2 = pollMaxIters ∧
    pollMaxIters * pollIntervalMs = 5000 ∧
    (∀ ctxAt2 : Nat → Option Nat, (pollStartup ctxAt2).2 ≤ pollMaxIters) := by
  refine ⟨?_, ?_, by decide, ?_⟩
  · unfold pollStartup
    rw [pollStartupAux_stuck ctxAt hstuck]
  · unfold pollStartup
    rw [pollStartupAux_stuck ctxAt hstuck]
    simp
  · intro ctxAt2
    have := pollStartupAux_sleep_bound ctxAt2 pollMaxIters 0
    unfold pollStartup
    omega

/-- Witness for C6 with the context permanently absent. -/
theorem C6_witness :
    (pollStartup (fun _ => none)).1 =
      Except.error (PyExn.runtimeError "Browser startup failed or timed out") ∧
    (pollStartup (fun _ => none)).2 = pollMaxIters ∧
    pollMaxIters * pollIntervalMs = 5000 ∧
    (∀ ctxAt2 : Nat → Option Nat, (pollStartup ctxAt2).2 ≤ pollMaxIters) :=
  C6_bounded_wait_timeout (fun _ => none) (fun _ => rfl)

/-! ## Tool dispatch (server/base.py, `call_tool`, lines 309-413) -/

/-- A JSON argument value as the MCP layer delivers it. -/
inductive JsonVal where
  | str (s : String)
  | num (n : Int)
  | boolean (b : Bool)
  | null
deriving DecidableEq, Repr

/-- The `arguments` mapping of a tool call. -/
def Args := List (String × JsonVal)

/-- `arguments.get(k)`. -/
def lookupArg (args : Args) (k : String) : Option JsonVal :=
  List.lookup k args

/-- `arguments[k]`: raises `KeyError(k)` when the key is absent. -/
def reqArg (args : Args) (k : String) : Except PyExn JsonVal :=
  match lookupArg args k with
  | some v => Except.ok v
  | none => Except.error (PyExn.keyError k)

/-- `arguments.get(k, default)`. -/
def optArg (args : Args) (k : String) (d : JsonVal) : JsonVal :=
  (lookupArg args k).getD d

/-- ASCII lowercase of one character (`str.lower()` restricted to the
ASCII range the checked substring uses). -/
def lowerCh (c : Char) : Char :=
  if 65 ≤ c.toNat ∧ c.toNat ≤ 90 then Char.ofNat (c.toNat + 32) else c

/-- `s.lower()`. -/
def strToLower (s : String) : String := String.mk (s.data.map lowerCh)

/-- Whether `pat` occurs as a contiguous run inside the character list. -/
def hasInfixAux (pat : List Char) : List Char → Bool
  | [] => pat.isEmpty
  | c :: rest => pat.isPrefixOf (c :: rest) || hasInfixAux pat rest

/-- Python `pat in s` for strings. -/
def strContainsSub (s pat : String) : Bool := hasInfixAux pat.data s.data

/-- The behaviour of each tool handler as the dispatcher sees it: a
function of the extracted arguments that either returns a
`CallToolResult` or raises.  This quantifies over everything a handler
body can do at the dispatch boundary. -/
structure HandlerEnv where
  navigateH : JsonVal → JsonVal → Except PyExn CallToolResult
  clickH : JsonVal → JsonVal → Except PyExn CallToolResult
  typeTextH : JsonVal → JsonVal → JsonVal → JsonVal → Except PyExn CallToolResult
  waitForH : Option JsonVal → Option JsonVal → JsonVal → JsonVal →
    Except PyExn CallToolResult
  getContentH : Option JsonVal → Option JsonVal → JsonVal → Except PyExn CallToolResult
  screenshotH : Option JsonVal → Option JsonVal → JsonVal → Except PyExn CallToolResult
  executeJsH : JsonVal → JsonVal → Except PyExn CallToolResult
  setGeolocationH : JsonVal → JsonVal → JsonVal → Except PyExn CallToolResult
  serverVersion : String
  closeH : Except PyExn CallToolResult
  captchaAvailable : Bool
  solveCaptchaH : JsonVal → Except PyExn CallToolResult

/-- The `try` body of `call_tool` (base.py lines 327-386): route by tool
name, extracting required arguments with `arguments[...]` (which raises
`KeyError`) and optional ones with `arguments.get(...)`; unknown names
yield the `Unknown tool` error result, and a disabled CAPTCHA solver its
fixed error result. -/
def callToolInner (env : HandlerEnv) (cfg : BrowserConfig)
    (name : String) (args : Args) : Except PyExn CallToolResult :=
  if name = "browser_navigate" then do
    let url ← reqArg args "url"
    env.navigateH url (optArg args "wait_until" (JsonVal.str "load"))
  else if name = "browser_click" then do
    let selector ← reqArg args "selector"
    env.clickH selector (optArg args "button" (JsonVal.str "left"))
  else if name = "browser_type" then do
    let selector ← reqArg args "selector"
    let text ← reqArg args "text"
    env.typeTextH selector text (optArg args "delay" (JsonVal.num 100))
      (optArg args "clear" (JsonVal.boolean false))
  else if name = "browser_wait_for" then
    env.waitForH (lookupArg args "selector") (lookupArg args "text")
      (optArg args "timeout" (JsonVal.num 30000))
      (optArg args "state" (JsonVal.str "visible"))
  else if name = "browser_get_content" then
    env.getContentH (lookupArg args "selector") (lookupArg args "attribute")
      (optArg args "inner_html" (JsonVal.boolean false))
  else if name = "browser_screenshot" then
    env.screenshotH (lookupArg args "filename") (lookupArg args "selector")
      (optArg args "full_page" (JsonVal.boolean false))
  else if name = "browser_execute_js" then do
    let code ← reqArg args "code"
    env.executeJsH code (optArg args "main_world" (JsonVal.boolean false))
  else if name = "browser_set_geolocation" then do
    let lat ← reqArg args "latitude"
    let lon ← reqArg args "longitude"
    env.setGeolocationH lat lon (optArg args "accuracy" (JsonVal.num 100))
  else if name = "get_server_version" then
    Except.ok (okText env.serverVersion)
  else if name = "browser_close" then
    env.closeH
  else if name = "browser_solve_captcha" then
    if ¬ (cfg.captcha_solver = true ∧ env.captchaAvailable = true) then
      Except.ok (errText "CAPTCHA solver not available/enabled.")
    else
      env.solveCaptchaH (optArg args "captcha_type" (JsonVal.str "auto"))
  else
    Except.ok (errText ("Unknown tool: " ++ name))

/-- `CamoufoxMCPServer.call_tool` (base.py lines 309-413): run the
routing body; any exception it raises is caught, logged, possibly
triggers a resource cleanup (only for `browser_navigate` when the
lowercased message contains `startup`), and is converted to an
error-flagged text response — `❌ PW Error in <name>: ...` for a
Playwright error, `❌ Error: ...` for anything else.  No exception
escapes the dispatch boundary. -/
def callTool (env : HandlerEnv) (cfg : BrowserConfig) (s : ServerState)
    (name : String) (args : Args) : CallToolResult × ServerState :=
  match callToolInner env cfg name args with
  | Except.ok r => (r, s)
  | Except.error e =>
    let s1 :=
      if name = "browser_navigate" ∧
          strContainsSub (strToLower (PyExn.msg e)) "startup" = true then
        (closeBrowserResources s).1
      else s
    match e with
    | PyExn.playwrightError m =>
      (errText ("❌ PW Error in " ++ name ++ ": " ++ m), s1)
    | e => (errText ("❌ Error: " ++ e.msg), s1)

/-- C9: the dispatch entry point is total and uniform.  For every tool
name, argument mapping, server state and handler behaviour, `call_tool`
returns a well-formed envelope: when the routing body returns a result it
is passed through unchanged, and when the routing body raises — handler
exceptions and missing required arguments alike — the response is a
single text content item with `isError = true`; in particular a
navigate call without its required `url` argument yields the error
envelope.  Nothing is re-raised past the boundary (the embedding of
`call_tool` is a total function into the envelope type). -/
theorem C9_dispatch_never_raises :
    (∀ (env : HandlerEnv) (cfg : BrowserConfig) (s : ServerState)
      (name : String) (args : Args),
      (∃ r, callToolInner env cfg name args = Except.ok r ∧
        callTool env cfg s name args = (r, s)) ∨
      (∃ e, callToolInner env cfg name args = Except.error e ∧
        (callTool env cfg s name args).1.isError = true ∧
        ∃ m, (callTool env cfg s name args).1.content = [Content.text m])) ∧
    (∀ (env : HandlerEnv) (cfg : BrowserConfig) (s : ServerState),
      (∃ e, callToolInner env cfg "browser_navigate" [] = Except.error e) ∧
      (callTool env cfg s "browser_navigate" []).1.isError = true) := by
  constructor
  · intro env cfg s name args
    cases h : callToolInner env cfg name args with
    | ok r =>
      left
      exact ⟨r, rfl, by unfold callTool; rw [h]⟩
    | error e =>
      right
      refine ⟨e, rfl, ?_, ?_⟩
      · unfold callTool
        rw [h]
        cases e <;> simp [errText]
      · unfold callTool
        rw [h]
        cases e <;> simp [errText]
  · intro env cfg s
    have hinner : callToolInner env cfg "browser_navigate" [] =
        Except.error (PyExn.keyError "url") := by
      unfold callToolInner reqArg lookupArg
      simp [List.lookup, Bind.bind, Except.bind]
    refine ⟨⟨PyExn.keyError "url", hinner⟩, ?_⟩
    unfold callTool
    rw [hinner]
    simp [errText]

end CamoufoxMCP
